import Mathlib

/-!
Verification development for the wandering-robot firmware
(`firmware/control/controller.py`, `firmware/control/policy.py`,
`firmware/policy_manager.py`, `firmware/config_manager.py`, `firmware/config.py`).

Shallow embedding conventions:
* Python floats are modelled as rationals `ℚ`; the sentinel `float('inf')`
  returned by the sensor facade is modelled by a dedicated constructor of
  `Dist`.
* Motion names are plain strings, exactly as in the source (the controller
  drives the actuator with string-dispatched calls).
* Side effects on the actuator (`robot.forward/backward/left/right/stop`,
  `time.sleep`) are modelled as an event trace of type `List Act`.
* A Python call that may raise is modelled with `Except String`; code that
  installs no handler simply propagates the error value.
* Logging/broadcast payloads are modelled only where a claim depends on
  them; formatted debug text interpolated into log strings (f-strings with
  numeric formatting) is elided, and the exact literal parts that claims
  mention (for example the rationale "clear") are kept verbatim.
-/

namespace WRobot

/-- A distance reading: either the "no echo" sentinel `float('inf')` or a
finite value in centimetres. -/
inductive Dist where
  | inf : Dist
  | val (q : ℚ) : Dist
deriving DecidableEq

/-- Python `d >= c` where `d` may be the infinite sentinel: `inf >= c` is
true for every finite `c`. -/
def Dist.ge (d : Dist) (c : ℚ) : Bool :=
  match d with
  | .inf => true
  | .val q => decide (c ≤ q)

/-- The tunables of `firmware/config.py` used by the controller and the
policy (module constants; `Controller._cfg` resolves the same names through
the effective configuration, which coincides with these compiled values when
no override is present). -/
structure Cfg where
  TICK_S : ℚ
  MOVE_TICK_S : ℚ
  TURN_TICK_S : ℚ
  FORWARD_SPD : ℚ
  TURN_SPD : ℚ
  BACK_SPD : ℚ
  STOP_CM : ℚ
  CLEAR_CM : ℚ
  STUCK_DELTA_CM : ℚ
  STUCK_STEPS : ℕ
  BACK_TICKS : ℕ
  NUDGE_TICKS : ℕ
  STUCK_COOLDOWN_STEPS : ℕ
deriving DecidableEq

/-- The compiled default values of `firmware/config.py`. -/
def defaultCfg : Cfg :=
  { TICK_S := 1/2
    MOVE_TICK_S := 1/2
    TURN_TICK_S := 1/2
    FORWARD_SPD := 7/10
    TURN_SPD := 9/20
    BACK_SPD := 3/5
    STOP_CM := 15
    CLEAR_CM := 30
    STUCK_DELTA_CM := 5
    STUCK_STEPS := 3
    BACK_TICKS := 1
    NUDGE_TICKS := 1
    STUCK_COOLDOWN_STEPS := 3 }

/-- One observable actuator/timing side effect of a tick. `move m s` stands
for the motor primitive `robot.m(s)`, `stop` for `robot.stop()`, `sleep d`
for `time.sleep(d)`. -/
inductive Act where
  | move (motion : String) (speed : ℚ) : Act
  | stop : Act
  | sleep (d : ℚ) : Act
deriving DecidableEq

/-- Embedding of `execute_motion` (controller.py lines 20-33): dispatch the
motion name to a motor primitive — any unknown name falls to `robot.stop()`
(the source also rebinds its local `motion` variable to "stop", which has no
caller-visible effect) — then block for `duration`, then `robot.stop()`. -/
def execute_motion (motion : String) (speed : ℚ) (duration : ℚ) : List Act :=
  if motion = "forward" ∨ motion = "backward" ∨ motion = "left" ∨ motion = "right" then
    [Act.move motion speed, Act.sleep duration, Act.stop]
  else
    [Act.stop, Act.sleep duration, Act.stop]

/-- Embedding of `Controller._duration_for_motion` (controller.py lines
610-616). -/
def duration_for_motion (cfg : Cfg) (motion : String) : ℚ :=
  if motion = "forward" ∨ motion = "backward" then cfg.MOVE_TICK_S
  else if motion = "left" ∨ motion = "right" then cfg.TURN_TICK_S
  else cfg.TICK_S

/-- Python `max` over a non-empty list (`[]` is mapped to 0; the source
never calls `max` on an empty list). -/
def listMax : List ℚ → ℚ
  | [] => 0
  | x :: xs => xs.foldl max x

/-- Python `min` over a non-empty list (`[]` is mapped to 0; the source
never calls `min` on an empty list). -/
def listMin : List ℚ → ℚ
  | [] => 0
  | x :: xs => xs.foldl min x

/-- Embedding of `Policy.decide_next_motion` (policy.py lines 200-217).
The injected boolean `turnChoice` stands for `random.choice(["left",
"right"])` (`true` picks "left"). Formatted distance text inside rationale
strings is rendered with `toString` instead of Python's `%.1f`; the literal
prefixes and the exact rationale "clear" are kept verbatim. -/
def decide_next_motion (cfg : Cfg) (turnChoice : Bool) (distance_cm : Dist)
    (prev_motion : String) : String × ℚ × String :=
  match distance_cm with
  | .inf => ("stop", 0, "no-echo: waiting for valid reading")
  | .val q =>
    if q ≤ cfg.STOP_CM then
      ((if turnChoice then "left" else "right"), cfg.TURN_SPD,
        "obstacle@" ++ toString q ++ "cm")
    else if cfg.CLEAR_CM ≤ q then
      ("forward", cfg.FORWARD_SPD, "clear")
    else if prev_motion = "left" ∨ prev_motion = "right" then
      (prev_motion, cfg.TURN_SPD * (4/5),
        "bias-" ++ prev_motion ++ "@" ++ toString q ++ "cm")
    else
      ("forward", cfg.FORWARD_SPD * (4/5), "caution@" ++ toString q ++ "cm")

/-- Embedding of `Policy.is_robot_stuck` (policy.py lines 166-198): returns
`(is_stuck, notes, cooldown_steps)`. The guard requires a non-empty history
of exactly `STUCK_STEPS` readings and a translational next motion; the
robot is stuck when the spread `max - min` is strictly below
`STUCK_DELTA_CM`. -/
def is_robot_stuck (cfg : Cfg) (distance_history : List ℚ)
    (next_motion : String) : Bool × String × ℕ :=
  if distance_history = [] ∨ distance_history.length ≠ cfg.STUCK_STEPS ∨
      ¬ (next_motion = "forward" ∨ next_motion = "backward") then
    (false, "", 0)
  else
    let spread := listMax distance_history - listMin distance_history
    if spread < cfg.STUCK_DELTA_CM then
      (true, "STUCK: spread " ++ toString spread ++ "cm", cfg.STUCK_COOLDOWN_STEPS)
    else
      (false, "", 0)

/-- The controller-owned mutable state set up in `Controller.__init__`
(controller.py lines 61-67): current motion/speed, the bounded distance
history (`deque(maxlen=STUCK_STEPS)`, most recent last), the stuck
cooldown counter, the queued-moves FIFO of `(motion, speed,
ticks_remaining)`, and the two mode flags (`auto_mode`,
`emergency_stopped`). -/
structure CtrlState where
  current_motion : String
  current_speed : ℚ
  dist_hist : List ℚ
  stuck_cooldown : ℕ
  queued_moves : List (String × ℚ × ℕ)
  auto_mode : Bool
  emergency_stopped : Bool
deriving DecidableEq

/-- An inbound command as drained from the command queue (controller.py
lines 274-348): either a structured dict command (`type: "mode"` or
`type: "cmd"`) or a legacy string command. -/
inductive Cmd where
  | mode (m : String) : Cmd
  | cmd (name : String) (speed : Option ℚ) (duration_ms : Option ℚ)
      (duration_s : Option ℚ) : Cmd
  | legacy (s : String) : Cmd
deriving DecidableEq

/-- Embedding of `Controller.emergency_stop` (controller.py lines 74-99):
stop the robot, clear the queued moves, zero the current motion/speed and
set the `emergency_stopped` flag (the broadcast of the STOPPED snapshot is
elided). -/
def emergency_stop (st : CtrlState) : CtrlState × List Act :=
  ({ st with
      queued_moves := []
      current_motion := "stop"
      current_speed := 0
      emergency_stopped := true },
   [Act.stop])

/-- Append to the bounded `deque(maxlen=n)`: the oldest entry is evicted
once the buffer is full. -/
def dequeAppend (maxlen : ℕ) (xs : List ℚ) (x : ℚ) : List ℚ :=
  let ys := xs ++ [x]
  if maxlen < ys.length then ys.drop (ys.length - maxlen) else ys

/-- Embedding of one command of the drain loop (controller.py lines
281-348). Structured `mode` commands stop the robot, clear the queue and
set `auto_mode`; structured `cmd` commands handle `toggle`/`auto`, queue a
single-tick move in REMOTE mode (the source also computes an unused local
`duration_s` for the move, elided here), and treat `stop` as an emergency
stop; legacy strings mirror the same handling, with `toggle` additionally
clearing `emergency_stopped`. Pure-boolean conjunctions are stated with
the string test first (the source's evaluation order; for the structured
movement branch the source tests the mode flag first — both operands are
pure, so the order is immaterial). Malformed commands fall through with no
effect. -/
def process_command (cfg : Cfg) (st : CtrlState) (c : Cmd) : CtrlState × List Act :=
  match c with
  | .mode m =>
      ({ st with queued_moves := [], auto_mode := m = "AUTO" }, [Act.stop])
  | .cmd name speed _dur_ms _dur_s =>
      if name = "toggle" then
        ({ st with auto_mode := !st.auto_mode, queued_moves := [] }, [Act.stop])
      else if name = "auto" then
        ({ st with auto_mode := true, queued_moves := [] }, [Act.stop])
      else if (name = "forward" ∨ name = "backward" ∨ name = "left" ∨ name = "right")
          ∧ st.auto_mode = false then
        let spd :=
          match speed with
          | some s => s
          | none =>
              if name = "forward" then cfg.FORWARD_SPD
              else if name = "backward" then cfg.BACK_SPD
              else cfg.TURN_SPD
        ({ st with queued_moves := st.queued_moves ++ [(name, spd, 1)] }, [])
      else if name = "stop" then
        emergency_stop st
      else
        (st, [])
  | .legacy s =>
      if s = "toggle" then
        ({ st with emergency_stopped := false, auto_mode := !st.auto_mode, queued_moves := [] },
         [Act.stop])
      else if s = "auto" then
        ({ st with auto_mode := true, queued_moves := [] }, [Act.stop])
      else if s = "stop" then
        emergency_stop st
      else if (s = "forward" ∨ s = "backward" ∨ s = "left" ∨ s = "right")
          ∧ st.auto_mode = false then
        let spd :=
          if s = "forward" then cfg.FORWARD_SPD
          else if s = "backward" then cfg.BACK_SPD
          else cfg.TURN_SPD
        ({ st with queued_moves := st.queued_moves ++ [(s, spd, 1)] }, [])
      else
        (st, [])

/-- Embedding of the non-blocking command drain at the top of a tick
(controller.py lines 274-348): every pending command is processed in
arrival order. -/
def drain_commands (cfg : Cfg) (st : CtrlState) (cmds : List Cmd) :
    CtrlState × List Act :=
  cmds.foldl
    (fun acc c =>
      let r := process_command cfg acc.1 c
      (r.1, acc.2 ++ r.2))
    (st, [])

/-- What one loop iteration of `Controller.run` produces: the successor
state, the actuator/timing trace, the `stuck_triggered` flag of the log
row, and the `executed_motion`/`executed_speed` fields of the published
snapshot. -/
structure TickOut where
  state : CtrlState
  acts : List Act
  stuck_triggered : Bool
  executed_motion : String
  executed_speed : ℚ
deriving DecidableEq

/-- Embedding of the queued-move branch at the top of the loop
(controller.py lines 211-272): execute the head queued move for its
resolved duration, decrement `ticks_remaining` (popping at zero), sleep
0.05 s, record the executed move as the current motion and `continue` —
commands are not drained and the policy is not consulted on such an
iteration. The log row writes `stuck_triggered = 0` (line 251; the
broadcast's transient `stuck: 1` recovery flag is elided). The `[]` case
is unreachable (the branch is only entered on a non-empty queue). -/
def queued_branch (cfg : Cfg) (st : CtrlState) : TickOut :=
  match st.queued_moves with
  | [] =>
      { state := st, acts := [], stuck_triggered := false,
        executed_motion := st.current_motion, executed_speed := st.current_speed }
  | (m, s, t) :: rest =>
      let q := if 1 < t then (m, s, t - 1) :: rest else rest
      { state := { st with queued_moves := q, current_motion := m, current_speed := s }
        acts := execute_motion m s (duration_for_motion cfg m) ++ [Act.sleep (1/20)]
        stuck_triggered := false
        executed_motion := m
        executed_speed := s }

/-- Result of the stuck check-and-trigger region of the AUTO branch
(controller.py lines 472-509): the possibly updated state together with
the (possibly reset) next motion/speed, the notes and the
`stuck_triggered` flag. -/
structure StuckStep where
  st : CtrlState
  next_motion : String
  next_speed : ℚ
  notes : String
  stuck_triggered : Bool
deriving DecidableEq

/-- Embedding of the stuck check and recovery trigger inside the AUTO
branch (controller.py lines 472-509). `is_robot_stuck` is consulted only
when the history holds at least `STUCK_STEPS` readings and the cooldown is
zero (`<= 0` in the source; the counter is a natural number). On a
trigger: the queue is replaced by the two-step recovery macro (backward
for `BACK_TICKS` ticks at `BACK_SPD`, then a random turn for `NUDGE_TICKS`
ticks at `TURN_SPD`), the cooldown is set to the returned
`STUCK_COOLDOWN_STEPS`, the history is truncated to its last `STUCK_STEPS`
entries only when it is longer than that (it never is, since the deque is
bounded), and the next motion is reset to forward at `FORWARD_SPD`.
`turnChoice` injects `random.choice(["left", "right"])`. In the non-stuck
case the source appends a formatted ` [STUCK_CHECK: ...]` debug suffix to
the notes, elided here. -/
def stuck_check_and_trigger (cfg : Cfg) (turnChoice : Bool) (st : CtrlState)
    (next_motion : String) (next_speed : ℚ) (notes : String) : StuckStep :=
  let r :=
    if cfg.STUCK_STEPS ≤ st.dist_hist.length ∧ st.stuck_cooldown = 0 then
      is_robot_stuck cfg st.dist_hist next_motion
    else
      (false, "", 0)
  if r.1 then
    { st := { st with
        queued_moves :=
          [("backward", cfg.BACK_SPD, cfg.BACK_TICKS),
           ((if turnChoice then "left" else "right"), cfg.TURN_SPD, cfg.NUDGE_TICKS)]
        stuck_cooldown := r.2.2
        dist_hist :=
          if cfg.STUCK_STEPS < st.dist_hist.length then
            st.dist_hist.drop (st.dist_hist.length - cfg.STUCK_STEPS)
          else
            st.dist_hist }
      next_motion := "forward"
      next_speed := cfg.FORWARD_SPD
      notes := r.2.1
      stuck_triggered := true }
  else
    { st := st, next_motion := next_motion, next_speed := next_speed,
      notes := notes, stuck_triggered := false }

/-- Embedding of the AUTO-mode branch (controller.py lines 445-595).
`dec` stands for `self.policy.decide_next_motion` and may raise; the
source installs no handler around the call, so an error propagates out of
the iteration. Otherwise: the executed-snapshot motion is the queue head
if any, else the current motion; the decided next motion goes through the
stuck check-and-trigger region; the (possibly reset) next motion becomes
the current one and is executed; a finite front reading is appended to the
bounded history (followed by the source's redundant explicit `popleft`
guard); finally a positive cooldown is decremented once. -/
def auto_branch (cfg : Cfg) (dec : Dist → String → Except String (String × ℚ × String))
    (front_d : Dist) (turnChoice : Bool) (st : CtrlState) : Except String TickOut :=
  let ex :=
    match st.queued_moves with
    | [] => (st.current_motion, st.current_speed)
    | (m, s, _) :: _ => (m, s)
  match dec front_d ex.1 with
  | .error e => .error e
  | .ok (nm, ns, notes) =>
      let d := stuck_check_and_trigger cfg turnChoice st nm ns notes
      let st1 := { d.st with current_motion := d.next_motion, current_speed := d.next_speed }
      let acts := execute_motion st1.current_motion st1.current_speed
        (duration_for_motion cfg st1.current_motion)
      let st2 : CtrlState :=
        match front_d with
        | .inf => st1
        | .val q =>
            let h1 := dequeAppend cfg.STUCK_STEPS st1.dist_hist q
            { st1 with dist_hist :=
                if cfg.STUCK_STEPS < h1.length then h1.drop 1 else h1 }
      let st3 :=
        if 0 < st2.stuck_cooldown then
          { st2 with stuck_cooldown := st2.stuck_cooldown - 1 }
        else
          st2
      .ok { state := st3, acts := acts, stuck_triggered := d.stuck_triggered,
            executed_motion := ex.1, executed_speed := ex.2 }

/-- Embedding of one iteration of the `Controller.run` loop (controller.py
lines 208-599), in the source's order: (1) a non-empty queue is serviced
first and the iteration ends (`continue`) — no drain, no mode checks; (2)
otherwise all pending commands are drained; (3) `emergency_stopped` idles
(0.1 s sleep, no actuation); (4) REMOTE with an empty queue idles (the
rate-limited snapshot re-publish is elided); (5) REMOTE with a queued move
pops and executes exactly one move; (6) AUTO runs the policy/stuck logic.
`front_d` is the front reading of `self.sensor.get_distances()` for this
iteration. -/
def tick (cfg : Cfg) (dec : Dist → String → Except String (String × ℚ × String))
    (front_d : Dist) (turnChoice : Bool) (cmds : List Cmd) (st : CtrlState) :
    Except String TickOut :=
  match st.queued_moves with
  | _ :: _ => .ok (queued_branch cfg st)
  | [] =>
      let p := drain_commands cfg st cmds
      let st1 := p.1
      if st1.emergency_stopped then
        .ok { state := st1, acts := p.2 ++ [Act.sleep (1/10)],
              stuck_triggered := false, executed_motion := "stop", executed_speed := 0 }
      else if st1.auto_mode = false ∧ st1.queued_moves = [] then
        .ok { state := st1, acts := p.2 ++ [Act.sleep (1/10)],
              stuck_triggered := false, executed_motion := "stop", executed_speed := 0 }
      else if st1.auto_mode = false then
        match st1.queued_moves with
        | [] =>
            .ok { state := st1, acts := p.2, stuck_triggered := false,
                  executed_motion := "stop", executed_speed := 0 }
        | (m, s, _) :: rest =>
            .ok { state := { st1 with queued_moves := rest }
                  acts := p.2 ++ execute_motion m s (duration_for_motion cfg m)
                  stuck_triggered := false
                  executed_motion := m
                  executed_speed := s }
      else
        (auto_branch cfg dec front_d turnChoice st1).map
          (fun o => { o with acts := p.2 ++ o.acts })

/-- Python `str.isupper()` restricted to the ASCII keys the firmware uses:
true when the string has at least one cased character and every cased
character is uppercase (for ASCII, cased = alphabetic). -/
def pyIsUpper (s : String) : Bool :=
  s.data.any (fun c => c.isAlpha) && s.data.all (fun c => !c.isAlpha || c.isUpper)

/-- The uppercase module attributes of `firmware/config.py` as the
`ConfigManager` sees them through `dir(self._defaults)` — the complete
compiled-defaults key/value table (all values are numeric). -/
def config_defaults : List (String × ℚ) :=
  [("TICK_S", 1/2), ("MOVE_TICK_S", 1/2), ("TURN_TICK_S", 1/2),
   ("FORWARD_SPD", 7/10), ("TURN_SPD", 9/20), ("BACK_SPD", 3/5),
   ("STOP_CM", 15), ("CLEAR_CM", 30), ("MAX_DISTANCE_M", 3),
   ("SAMPLES_PER_READ", 3), ("STUCK_DELTA_CM", 5), ("STUCK_STEPS", 3),
   ("BACK_TICKS", 1), ("NUDGE_TICKS", 1), ("STUCK_COOLDOWN_STEPS", 3),
   ("FRONT_TRIG", 19), ("FRONT_ECHO", 26), ("LEFT_TRIG", 6),
   ("LEFT_ECHO", 13), ("RIGHT_TRIG", 20), ("RIGHT_ECHO", 21),
   ("DASHBOARD_PORT", 8000)]

/-- Dictionary lookup on an association list. -/
def lookupKey (m : List (String × ℚ)) (k : String) : Option ℚ :=
  match m with
  | [] => none
  | kv :: rest => if kv.1 = k then some kv.2 else lookupKey rest k

/-- Dictionary assignment `m[k] = v` on an association list: replace the
existing binding or append a new one. -/
def setKey (m : List (String × ℚ)) (k : String) (v : ℚ) : List (String × ℚ) :=
  match m with
  | [] => [(k, v)]
  | kv :: rest => if kv.1 = k then (kv.1, v) :: rest else kv :: setKey rest k v

/-- The `ConfigManager` state: the in-memory overrides dictionary
(config_manager.py line 11; persistence to the JSON file is an external
side effect that reproduces this dictionary). -/
structure ConfigState where
  overrides : List (String × ℚ)
deriving DecidableEq

/-- Embedding of `ConfigManager.get` (config_manager.py lines 43-46):
override if present, else `getattr(self._defaults, key, default)`. -/
def cm_get (st : ConfigState) (key : String) (dflt : Option ℚ) : Option ℚ :=
  match lookupKey st.overrides key with
  | some v => some v
  | none =>
      match lookupKey config_defaults key with
      | some v => some v
      | none => dflt

/-- Embedding of `ConfigManager.set_overrides` (config_manager.py lines
48-78): each supplied key is stored iff `k.isupper()` holds — there is no
check against the compiled defaults. The source skips the assignment when
the stored value already equals the new one, which leaves the dictionary
unchanged in exactly that case, so the unconditional assignment is
semantically identical; saving and change-logging are side effects that do
not alter the dictionary. -/
def cm_set_overrides (st : ConfigState) (ov : List (String × ℚ)) : ConfigState :=
  { overrides :=
      ov.foldl (fun acc kv => if pyIsUpper kv.1 then setKey acc kv.1 kv.2 else acc)
        st.overrides }

/-- Embedding of `ConfigManager.clear_overrides` (config_manager.py lines
80-102): the overrides dictionary becomes empty (persistence/logging
elided). -/
def cm_clear_overrides (_st : ConfigState) : ConfigState :=
  { overrides := [] }

/-- Embedding of `ConfigManager.get_effective` (config_manager.py lines
35-41): the defaults table updated with every stored override (including
keys unknown to the defaults). -/
def cm_get_effective (st : ConfigState) : List (String × ℚ) :=
  st.overrides.foldl (fun acc kv => setKey acc kv.1 kv.2) config_defaults

/-- The keys of an association list. -/
def keysOf : List (String × ℚ) → List String
  | [] => []
  | kv :: rest => kv.1 :: keysOf rest

/-- The behaviour of one decision-policy object as the manager invokes it:
a call that either returns a `(motion, speed, rationale)` triple or
raises. -/
def PolicyFun : Type :=
  Dist → String → Except String (String × ℚ × String)

/-- The `PolicyManager` state (policy_manager.py lines 28-30): the active
policy instance, its declared name and the last recorded error. -/
structure PMState where
  active_name : String
  last_error : Option String
  active : PolicyFun

/-- An uploaded policy payload as `PolicyManager.reload` classifies it
(policy_manager.py lines 115-174): no file on disk; a module whose
execution raises; a module exposing a `Policy` class (whose construction
yields the policy behaviour, or raises); a module exposing only a callable
`decide_next_motion` (legacy); or a module exposing neither. -/
inductive Payload where
  | absent : Payload
  | load_raises (msg : String) : Payload
  | policy_class (ctor : Except String PolicyFun) : Payload
  | decide_fn (f : PolicyFun) : Payload
  | no_contract : Payload

/-- Embedding of `PolicyManager.reload` (policy_manager.py lines 115-174).
`last_error` is reset, then: a missing payload installs the default
policy; a loadable module with a `Policy` class installs its instance as
"custom"; one with only `decide_next_motion` installs the legacy wrapper
as "custom_legacy"; a module with neither raises `ValueError`, and any
raise during load or construction is caught, recorded in `last_error` and
answered by installing the default policy under the name "default". No
branch ever invokes the candidate policy: installation happens without any
synthetic-input execution or result-shape check. -/
def pm_reload (dflt : PolicyFun) (p : Payload) : PMState :=
  match p with
  | .absent =>
      { active_name := "default", last_error := none, active := dflt }
  | .load_raises msg =>
      { active_name := "default", last_error := some ("load_error: " ++ msg),
        active := dflt }
  | .policy_class ctor =>
      match ctor with
      | .ok f => { active_name := "custom", last_error := none, active := f }
      | .error msg =>
          { active_name := "default", last_error := some ("load_error: " ++ msg),
            active := dflt }
  | .decide_fn f =>
      { active_name := "custom_legacy", last_error := none, active := f }
  | .no_contract =>
      { active_name := "default",
        last_error :=
          some "load_error: ValueError: Uploaded module lacks callable decide_next_motion or Policy class",
        active := dflt }

/-- Embedding of `PolicyManager.get_next_action` (policy_manager.py lines
51-75): the active policy is invoked inside a try/except — on a raise the
error is recorded in `last_error`, the default policy is re-installed
under the name "default", and the call answers `("stop", 0.0,
"policy_error: ...", False)` for this tick. The source delegates to the
active policy's `get_next_action` when present and falls back to its
`decide_next_motion`; both are invocations of the active policy and are
handled by the same except-clause, modelled here as the single behaviour
`pm.active`. -/
def pm_get_next_action (dflt : PolicyFun) (pm : PMState) (prev_motion : String)
    (front_d : Dist) : PMState × (String × ℚ × String × Bool) :=
  match pm.active front_d prev_motion with
  | .ok (m, s, n) => (pm, (m, s, n, false))
  | .error e =>
      ({ active_name := "default", last_error := some ("active_policy_error: " ++ e),
         active := dflt },
       ("stop", 0, "policy_error: " ++ e, false))

/-- The built-in default policy behaviour installed by the manager (the
`Policy` class of policy.py, with the injected turn tie-break fixed): it
never raises. -/
def defaultPolicyFun : PolicyFun :=
  fun d prev => .ok (decide_next_motion defaultCfg true d prev)

/-- C10: for every motion name and every speed, `execute_motion` ends the
tick by commanding the robot to stop, and any motion name outside
forward/backward/left/right causes no movement at all — the robot is
immediately stopped and the tick consists of a stop, the full-duration
wait, and a final stop. -/
theorem c10_execute_motion_safe (motion : String) (speed duration : ℚ) :
    (execute_motion motion speed duration).getLast? = some Act.stop ∧
    (¬ (motion = "forward" ∨ motion = "backward" ∨ motion = "left" ∨ motion = "right") →
      execute_motion motion speed duration = [Act.stop, Act.sleep duration, Act.stop]) := by
  constructor
  · by_cases h : motion = "forward" ∨ motion = "backward" ∨ motion = "left" ∨ motion = "right" <;>
      simp [execute_motion, h]
  · intro h
    simp [execute_motion, h]

/-- C10 witness: the unknown motion name "spin" produces only stop and
sleep events, ending stopped. -/
theorem c10_execute_motion_safe_witness :
    (execute_motion "spin" (1/2) (1/2)).getLast? = some Act.stop ∧
    execute_motion "spin" (1/2) (1/2) = [Act.stop, Act.sleep (1/2), Act.stop] := by
  have h := c10_execute_motion_safe "spin" (1/2) (1/2)
  exact ⟨h.1, h.2 (by decide)⟩

/-- C6 counterexample: the sentinel distance satisfies the
`distance >= clear_distance` comparison, yet the policy answers it with
the first rule — Stop at speed 0 with the no-echo rationale, not Forward
at full speed with rationale "clear". The claim as stated is therefore
false at the sentinel reading. -/
theorem c6_counterexample :
    Dist.ge Dist.inf defaultCfg.CLEAR_CM = true ∧
    decide_next_motion defaultCfg true Dist.inf "forward" =
      ("stop", 0, "no-echo: waiting for valid reading") :=
  ⟨rfl, rfl⟩

/-- C6 (amended): for every finite (non-sentinel) distance reading at or
above `clear_distance`, the single-sensor policy returns forward at the
full configured forward speed with rationale "clear"; the sentinel
reading, although it satisfies the inequality, is answered by the earlier
no-echo rule instead. -/
theorem c6_clear_forward (cfg : Cfg) (turnChoice : Bool) (q : ℚ) (prev_motion : String)
    (hlt : cfg.STOP_CM < cfg.CLEAR_CM) (hq : cfg.CLEAR_CM ≤ q) :
    decide_next_motion cfg turnChoice (Dist.val q) prev_motion =
      ("forward", cfg.FORWARD_SPD, "clear") := by
  have h1 : ¬ q ≤ cfg.STOP_CM := by linarith
  simp only [decide_next_motion, if_neg h1, if_pos hq]

/-- C6 witness: a 42 cm reading under the compiled defaults
(clear_distance 30 cm) yields forward at 0.7 with rationale "clear". -/
theorem c6_clear_forward_witness :
    decide_next_motion defaultCfg true (Dist.val 42) "left" =
      ("forward", defaultCfg.FORWARD_SPD, "clear") :=
  c6_clear_forward defaultCfg true 42 "left" (by decide) (by decide)

/-- C7 counterexample: a payload exposing a `Policy` class whose decision
behaviour raises on every input is nevertheless installed as the active
policy under the name "custom" with no recorded error — had the reload
validated the candidate by executing it once with a synthetic input and
checking the returned shape, this candidate could not have been installed.
The validation part of the claim is therefore false. -/
theorem c7_counterexample :
    (pm_reload defaultPolicyFun
        (Payload.policy_class (Except.ok (fun _ _ => Except.error "boom")))).active_name =
      "custom" ∧
    (pm_reload defaultPolicyFun
        (Payload.policy_class (Except.ok (fun _ _ => Except.error "boom")))).last_error =
      none ∧
    (pm_reload defaultPolicyFun
        (Payload.policy_class (Except.ok (fun _ _ => Except.error "boom")))).active
        (Dist.val 20) "forward" =
      Except.error "boom" :=
  ⟨rfl, rfl, rfl⟩

/-- C7 (amended): a reload with a payload missing the required contract
leaves the active policy name "default" and records a non-empty error
string, and a reload with a payload exposing a `Policy` class installs
exactly that candidate under the name "custom" with no error —
unconditionally in the candidate's behaviour, because validation consists
only of loading the module and constructing the class: the candidate is
never executed with a synthetic input before installation. -/
theorem c7_reload_behavior (dflt : PolicyFun) (f : PolicyFun) :
    (pm_reload dflt Payload.no_contract).active_name = "default" ∧
    (∃ s, (pm_reload dflt Payload.no_contract).last_error = some s ∧ s ≠ "") ∧
    pm_reload dflt (Payload.policy_class (Except.ok f)) =
      { active_name := "custom", last_error := none, active := f } := by
  refine ⟨rfl, ⟨_, rfl, ?_⟩, rfl⟩
  decide

/-- Dictionary assignment binds the assigned key. -/
theorem lookupKey_setKey (m : List (String × ℚ)) (k : String) (v : ℚ) :
    lookupKey (setKey m k v) k = some v := by
  induction m with
  | nil => simp [setKey, lookupKey]
  | cons kv rest ih =>
      by_cases h : kv.1 = k <;> simp [setKey, lookupKey, h, ih]

/-- A successful dictionary lookup exhibits a binding of the list. -/
theorem lookupKey_some_mem (m : List (String × ℚ)) (k : String) (v : ℚ)
    (h : lookupKey m k = some v) : (k, v) ∈ m := by
  induction m with
  | nil => simp [lookupKey] at h
  | cons kv rest ih =>
      by_cases hk : kv.1 = k
      · rw [lookupKey, if_pos hk] at h
        injection h with h2
        have hkv : kv = (k, v) := by
          rcases kv with ⟨k2, v2⟩
          simp only [Prod.mk.injEq]
          exact ⟨hk, h2⟩
        rw [hkv]
        exact List.mem_cons_self _ _
      · rw [lookupKey, if_neg hk] at h
        exact List.mem_cons_of_mem _ (ih h)

/-- Key membership after a dictionary assignment. -/
theorem mem_keysOf_setKey (m : List (String × ℚ)) (k a : String) (v : ℚ) :
    a ∈ keysOf (setKey m k v) ↔ a ∈ keysOf m ∨ a = k := by
  induction m with
  | nil => simp [setKey, keysOf]
  | cons kv rest ih =>
      by_cases h : kv.1 = k
      · have hs : setKey (kv :: rest) k v = (kv.1, v) :: rest := by
          rw [setKey, if_pos h]
        rw [hs]
        simp only [keysOf, List.mem_cons]
        constructor
        · rintro (h1 | h1)
          · exact Or.inl (Or.inl h1)
          · exact Or.inl (Or.inr h1)
        · rintro ((h1 | h1) | h1)
          · exact Or.inl h1
          · exact Or.inr h1
          · exact Or.inl (h1.trans h.symm)
      · have hs : setKey (kv :: rest) k v = kv :: setKey rest k v := by
          rw [setKey, if_neg h]
        rw [hs]
        simp only [keysOf, List.mem_cons]
        rw [ih]
        tauto

/-- Key membership through the `set_overrides` filtering fold. -/
theorem mem_keysOf_override_foldl (ov : List (String × ℚ))
    (init : List (String × ℚ)) (k : String) :
    k ∈ keysOf (ov.foldl
        (fun acc kv => if pyIsUpper kv.1 then setKey acc kv.1 kv.2 else acc) init) ↔
      k ∈ keysOf init ∨ (pyIsUpper k = true ∧ k ∈ keysOf ov) := by
  induction ov generalizing init with
  | nil => simp [keysOf]
  | cons kv rest ih =>
      simp only [List.foldl_cons]
      by_cases h : pyIsUpper kv.1
      · rw [if_pos h, ih, mem_keysOf_setKey]
        simp only [keysOf, List.mem_cons]
        constructor
        · rintro ((h1 | h1) | ⟨h1, h2⟩)
          · exact Or.inl h1
          · exact Or.inr ⟨by rw [h1]; exact h, Or.inl h1⟩
          · exact Or.inr ⟨h1, Or.inr h2⟩
        · rintro (h1 | ⟨h1, h2 | h2⟩)
          · exact Or.inl (Or.inl h1)
          · exact Or.inl (Or.inr h2)
          · exact Or.inr ⟨h1, h2⟩
      · rw [if_neg h, ih]
        simp only [keysOf, List.mem_cons]
        constructor
        · rintro (h1 | ⟨h1, h2⟩)
          · exact Or.inl h1
          · exact Or.inr ⟨h1, Or.inr h2⟩
        · rintro (h1 | ⟨h1, h2 | h2⟩)
          · exact Or.inl h1
          · exact absurd (h2 ▸ h1) (by simpa using h)
          · exact Or.inr ⟨h1, h2⟩

/-- Key membership through the unconditional update fold used by
`get_effective`. -/
theorem mem_keysOf_update_foldl (ov : List (String × ℚ))
    (init : List (String × ℚ)) (k : String) :
    k ∈ keysOf (ov.foldl (fun acc kv => setKey acc kv.1 kv.2) init) ↔
      k ∈ keysOf init ∨ k ∈ keysOf ov := by
  induction ov generalizing init with
  | nil => simp [keysOf]
  | cons kv rest ih =>
      simp only [List.foldl_cons]
      rw [ih, mem_keysOf_setKey]
      simp only [keysOf, List.mem_cons]
      tauto

/-- C8 counterexample: the key "ZZ_BOGUS" is unknown to the compiled
defaults, yet `set_overrides` stores it (the filter is `str.isupper`, not
defaults-membership) and it then appears in the effective configuration.
The claim that unrecognized keys never appear in the stored overrides or
the effective configuration is therefore false. -/
theorem c8_counterexample :
    lookupKey config_defaults "ZZ_BOGUS" = none ∧
    (cm_set_overrides { overrides := [] } [("ZZ_BOGUS", 1)]).overrides =
      [("ZZ_BOGUS", 1)] ∧
    lookupKey (cm_get_effective (cm_set_overrides { overrides := [] } [("ZZ_BOGUS", 1)]))
      "ZZ_BOGUS" = some 1 :=
  ⟨rfl, rfl, rfl⟩

/-- C8 (amended): `set_overrides` filters keys by Python `str.isupper`,
not by membership in the compiled defaults — a key is stored iff it was
already stored or it occurs in the supplied map and is all-uppercase (so
unknown-but-uppercase keys are accepted, while keys failing `isupper` are
rejected silently and never appear); the effective configuration contains
exactly the defaults-known keys plus every stored override key. -/
theorem c8_override_keys (st : ConfigState) (ov : List (String × ℚ)) (k : String) :
    (k ∈ keysOf (cm_set_overrides st ov).overrides ↔
      k ∈ keysOf st.overrides ∨ (pyIsUpper k = true ∧ k ∈ keysOf ov)) ∧
    (k ∈ keysOf (cm_get_effective st) ↔
      k ∈ keysOf config_defaults ∨ k ∈ keysOf st.overrides) :=
  ⟨mem_keysOf_override_foldl ov st.overrides k,
   mem_keysOf_update_foldl st.overrides config_defaults k⟩

/-- Every key of the compiled defaults satisfies Python `str.isupper`. -/
theorem config_defaults_keys_upper :
    ∀ kv ∈ config_defaults, pyIsUpper kv.1 = true := by
  decide

/-- C9: for every recognized key K (one known to the compiled defaults
with value dv) and every value V, `set_overrides` with the single binding
K := V followed by `get K` returns V, and `clear_overrides` followed by
`get K` returns the compiled default dv. -/
theorem c9_roundtrip (st st2 : ConfigState) (K : String) (V dv : ℚ)
    (h : lookupKey config_defaults K = some dv) :
    cm_get (cm_set_overrides st [(K, V)]) K none = some V ∧
    cm_get (cm_clear_overrides st2) K none = some dv := by
  have hupper : pyIsUpper K = true :=
    config_defaults_keys_upper (K, dv) (lookupKey_some_mem _ _ _ h)
  constructor
  · have hov : (cm_set_overrides st [(K, V)]).overrides = setKey st.overrides K V := by
      simp [cm_set_overrides, hupper]
    rw [cm_get, hov, lookupKey_setKey]
  · have hshape : cm_get (cm_clear_overrides st2) K none =
        (match lookupKey config_defaults K with
          | some v => some v
          | none => none) := rfl
    rw [hshape, h]

/-- C9 witness: overriding FORWARD_SPD with 0.25 makes `get` return 0.25;
clearing overrides makes `get` return the compiled default 0.7. -/
theorem c9_roundtrip_witness :
    cm_get (cm_set_overrides { overrides := [] } [("FORWARD_SPD", 1/4)])
      "FORWARD_SPD" none = some (1/4) ∧
    cm_get (cm_clear_overrides { overrides := [("FORWARD_SPD", 1/4)] })
      "FORWARD_SPD" none = some (7/10) :=
  c9_roundtrip { overrides := [] } { overrides := [("FORWARD_SPD", 1/4)] }
    "FORWARD_SPD" (1/4) (7/10) (by rfl)

/-- C1 counterexample: starting from an emergency-stopped REMOTE state,
(i) the legacy `auto` command does NOT clear the emergency stop (the flag
stays set, so ticks do not execute again), and (ii) a `forward` motion
command IS accepted into the queue and the following tick actuates the
forward motion while the state is still emergency-stopped. Both facts
contradict the claimed stickiness of EmergencyStopped. -/
theorem c1_counterexample :
    (drain_commands defaultCfg
        { current_motion := "stop", current_speed := 0, dist_hist := [],
          stuck_cooldown := 0, queued_moves := [], auto_mode := false,
          emergency_stopped := true }
        [Cmd.legacy "auto"]).1.emergency_stopped = true ∧
    (tick defaultCfg defaultPolicyFun (Dist.val 100) true
        [Cmd.cmd "forward" none none none]
        { current_motion := "stop", current_speed := 0, dist_hist := [],
          stuck_cooldown := 0, queued_moves := [], auto_mode := false,
          emergency_stopped := true }).map
        (fun o => (o.state.queued_moves, o.state.emergency_stopped,
                   o.acts.contains (Act.move "forward" (7/10)))) =
      Except.ok ([("forward", 7/10, 1)], true, false) ∧
    (tick defaultCfg defaultPolicyFun (Dist.val 100) true []
        { current_motion := "stop", current_speed := 0, dist_hist := [],
          stuck_cooldown := 0, queued_moves := [("forward", 7/10, 1)], auto_mode := false,
          emergency_stopped := true }).map
        (fun o => (o.state.emergency_stopped, o.acts)) =
      Except.ok (true,
        [Act.move "forward" (7/10), Act.sleep (1/2), Act.stop, Act.sleep (1/20)]) :=
  ⟨rfl, rfl, rfl⟩

/-- C1 (amended): the stop command, in any mode and in either command
form, clears the macro queue, zeroes the current motion and speed, stops
the robot and enters the EmergencyStopped state; but EmergencyStopped is
only partially sticky — exclusively the LEGACY string toggle command
clears it (the auto command in both forms, the structured toggle and the
structured mode command all leave the flag unchanged), and a motion
command received in Remote mode while EmergencyStopped is still queued
during the drain (producing no actuation on that tick) and is then
executed by the following tick's queued-move branch. -/
theorem c1_emergency_stop_amended (cfg : Cfg) (st : CtrlState) :
    ((drain_commands cfg st [Cmd.legacy "stop"]).1 =
        { st with queued_moves := [], current_motion := "stop", current_speed := 0,
                  emergency_stopped := true } ∧
      (drain_commands cfg st [Cmd.legacy "stop"]).2 = [Act.stop]) ∧
    ((drain_commands cfg st [Cmd.cmd "stop" none none none]).1 =
        { st with queued_moves := [], current_motion := "stop", current_speed := 0,
                  emergency_stopped := true } ∧
      (drain_commands cfg st [Cmd.cmd "stop" none none none]).2 = [Act.stop]) ∧
    (drain_commands cfg st [Cmd.legacy "toggle"]).1.emergency_stopped = false ∧
    (drain_commands cfg st [Cmd.legacy "auto"]).1.emergency_stopped =
      st.emergency_stopped ∧
    (drain_commands cfg st [Cmd.cmd "auto" none none none]).1.emergency_stopped =
      st.emergency_stopped ∧
    (drain_commands cfg st [Cmd.cmd "toggle" none none none]).1.emergency_stopped =
      st.emergency_stopped ∧
    (∀ m, (drain_commands cfg st [Cmd.mode m]).1.emergency_stopped =
      st.emergency_stopped) ∧
    (tick defaultCfg defaultPolicyFun (Dist.val 100) true
        [Cmd.cmd "forward" none none none]
        { current_motion := "stop", current_speed := 0, dist_hist := [],
          stuck_cooldown := 0, queued_moves := [], auto_mode := false,
          emergency_stopped := true }).map
        (fun o => (o.state.queued_moves, o.state.emergency_stopped,
                   o.acts.any (fun a =>
                     match a with
                     | Act.move _ _ => true
                     | _ => false))) =
      Except.ok ([("forward", 7/10, 1)], true, false) ∧
    (tick defaultCfg defaultPolicyFun (Dist.val 100) true []
        { current_motion := "stop", current_speed := 0, dist_hist := [],
          stuck_cooldown := 0, queued_moves := [("forward", 7/10, 1)], auto_mode := false,
          emergency_stopped := true }).map
        (fun o => (o.state.emergency_stopped, o.executed_motion, o.acts)) =
      Except.ok (true, "forward",
        [Act.move "forward" (7/10), Act.sleep (1/2), Act.stop, Act.sleep (1/20)]) :=
  ⟨⟨rfl, rfl⟩, ⟨rfl, rfl⟩, rfl, rfl, rfl, rfl, fun _ => rfl, rfl, rfl⟩

/-- C2: the controller's tick loop invokes the active policy's
`decide_next_motion` with no surrounding fault boundary, so an exception
raised by the policy propagates out of the iteration and terminates the
loop — it is NOT answered with a stop for that tick. The per-invocation
catch the claim describes exists only in `PolicyManager.get_next_action`
(which does answer stop at speed 0, record the error and revert to the
default policy), a method the tick loop never calls. The first conjunct
evaluates the tick at the failing input; the remaining conjuncts evaluate
the manager-level wrapper at the same faulting policy for contrast. -/
theorem c2_policy_fault_propagates :
    tick defaultCfg (fun _ _ => Except.error "boom") (Dist.val 20) true []
        { current_motion := "forward", current_speed := 7/10, dist_hist := [],
          stuck_cooldown := 0, queued_moves := [], auto_mode := true,
          emergency_stopped := false } =
      Except.error "boom" ∧
    (pm_get_next_action defaultPolicyFun
        { active_name := "custom", last_error := none,
          active := fun _ _ => Except.error "boom" }
        "forward" (Dist.val 20)).2 =
      ("stop", 0, "policy_error: boom", false) ∧
    (pm_get_next_action defaultPolicyFun
        { active_name := "custom", last_error := none,
          active := fun _ _ => Except.error "boom" }
        "forward" (Dist.val 20)).1.active_name = "default" ∧
    (pm_get_next_action defaultPolicyFun
        { active_name := "custom", last_error := none,
          active := fun _ _ => Except.error "boom" }
        "forward" (Dist.val 20)).1.last_error =
      some "active_policy_error: boom" :=
  ⟨rfl, rfl, rfl, rfl⟩

/-- C5 counterexample: with a non-empty recovery queue, the tick's entire
result is identical under two decision policies that disagree on every
input, and the executed motion is the queue head — so the Decision Policy
is not invoked on such a tick and no post-macro motion is precomputed,
contradicting the claim that the policy is still consulted mid-macro. -/
theorem c5_counterexample :
    tick defaultCfg (fun _ _ => Except.ok ("forward", (7/10 : ℚ), "clear"))
        (Dist.val 50) true []
        { current_motion := "forward", current_speed := 7/10, dist_hist := [40, 41, 42],
          stuck_cooldown := 2, queued_moves := [("backward", 3/5, 2)], auto_mode := true,
          emergency_stopped := false } =
      tick defaultCfg (fun _ _ => Except.ok ("left", (9/20 : ℚ), "x"))
        (Dist.val 50) true []
        { current_motion := "forward", current_speed := 7/10, dist_hist := [40, 41, 42],
          stuck_cooldown := 2, queued_moves := [("backward", 3/5, 2)], auto_mode := true,
          emergency_stopped := false } ∧
    (tick defaultCfg (fun _ _ => Except.ok ("forward", (7/10 : ℚ), "clear"))
        (Dist.val 50) true []
        { current_motion := "forward", current_speed := 7/10, dist_hist := [40, 41, 42],
          stuck_cooldown := 2, queued_moves := [("backward", 3/5, 2)], auto_mode := true,
          emergency_stopped := false }).map (fun o => o.executed_motion) =
      Except.ok "backward" :=
  ⟨rfl, rfl⟩

/-- C5 (amended): on every tick in which the macro queue is non-empty, the
head QueuedMove alone determines the executed motion (it is executed for
its resolved duration and recorded as the executed motion/speed), and the
Decision Policy is NOT invoked on that tick — the tick's result is
independent of the policy; ordinary policy evaluation resumes, with a
fresh (not precomputed) decision, only on a tick whose queue is empty. -/
theorem c5_macro_queue_sole_authority (cfg : Cfg)
    (d1 d2 : Dist → String → Except String (String × ℚ × String))
    (front_d : Dist) (turnChoice : Bool) (cmds : List Cmd) (st : CtrlState)
    (m : String) (s : ℚ) (t : ℕ) (rest : List (String × ℚ × ℕ))
    (hq : st.queued_moves = (m, s, t) :: rest) :
    tick cfg d1 front_d turnChoice cmds st = Except.ok (queued_branch cfg st) ∧
    tick cfg d1 front_d turnChoice cmds st = tick cfg d2 front_d turnChoice cmds st ∧
    (queued_branch cfg st).executed_motion = m ∧
    (queued_branch cfg st).executed_speed = s ∧
    (queued_branch cfg st).acts =
      execute_motion m s (duration_for_motion cfg m) ++ [Act.sleep (1/20)] := by
  refine ⟨?_, ?_, ?_, ?_, ?_⟩
  · rw [tick, hq]
  · rw [tick, hq, tick, hq]
  · rw [queued_branch, hq]
  · rw [queued_branch, hq]
  · rw [queued_branch, hq]

/-- C5 witness: the amended statement evaluated on a concrete mid-macro
state (queue head backward at 0.6 for 2 more ticks). -/
theorem c5_macro_queue_sole_authority_witness :
    tick defaultCfg defaultPolicyFun (Dist.val 50) true []
        { current_motion := "forward", current_speed := 7/10, dist_hist := [40, 41, 42],
          stuck_cooldown := 2, queued_moves := [("backward", 3/5, 2)], auto_mode := true,
          emergency_stopped := false } =
      Except.ok (queued_branch defaultCfg
        { current_motion := "forward", current_speed := 7/10, dist_hist := [40, 41, 42],
          stuck_cooldown := 2, queued_moves := [("backward", 3/5, 2)], auto_mode := true,
          emergency_stopped := false }) ∧
    (queued_branch defaultCfg
        { current_motion := "forward", current_speed := 7/10, dist_hist := [40, 41, 42],
          stuck_cooldown := 2, queued_moves := [("backward", 3/5, 2)], auto_mode := true,
          emergency_stopped := false }).executed_motion = "backward" := by
  have h := c5_macro_queue_sole_authority defaultCfg defaultPolicyFun defaultPolicyFun
    (Dist.val 50) true []
    { current_motion := "forward", current_speed := 7/10, dist_hist := [40, 41, 42],
      stuck_cooldown := 2, queued_moves := [("backward", 3/5, 2)], auto_mode := true,
      emergency_stopped := false }
    "backward" (3/5) 2 [] rfl
  exact ⟨h.1, h.2.2.1⟩

/-- C3: given a distance history of exactly `STUCK_STEPS` readings whose
spread is strictly below `STUCK_DELTA_CM`, a zero cooldown and a decided
next motion of forward or backward, the stuck trigger fires: it replaces
the queue with the two-step recovery macro (backward for `BACK_TICKS`
ticks at `BACK_SPD`, then a randomly chosen turn direction for
`NUDGE_TICKS` ticks at `TURN_SPD`, total `BACK_TICKS + NUDGE_TICKS`
ticks), sets the cooldown to `STUCK_COOLDOWN_STEPS`, leaves the history
cleared-or-truncated-to-the-last-window (at exactly the window size the
defensive truncation keeps it as is), and resets the next decided motion
to forward at the full configured forward speed; in the same tick the AUTO
branch records the trigger and ends with the macro enqueued and the
current motion reset accordingly. -/
theorem c3_stuck_trigger (cfg : Cfg) (turnChoice : Bool) (st : CtrlState)
    (nm : String) (ns : ℚ) (notes : String)
    (hne : st.dist_hist ≠ [])
    (hlen : st.dist_hist.length = cfg.STUCK_STEPS)
    (hcd : st.stuck_cooldown = 0)
    (hnm : nm = "forward" ∨ nm = "backward")
    (hspread : listMax st.dist_hist - listMin st.dist_hist < cfg.STUCK_DELTA_CM) :
    (stuck_check_and_trigger cfg turnChoice st nm ns notes).stuck_triggered = true ∧
    (stuck_check_and_trigger cfg turnChoice st nm ns notes).st.queued_moves =
      [("backward", cfg.BACK_SPD, cfg.BACK_TICKS),
       ((if turnChoice then "left" else "right"), cfg.TURN_SPD, cfg.NUDGE_TICKS)] ∧
    ((stuck_check_and_trigger cfg turnChoice st nm ns notes).st.queued_moves.map
        (fun q => q.2.2)).sum = cfg.BACK_TICKS + cfg.NUDGE_TICKS ∧
    (stuck_check_and_trigger cfg turnChoice st nm ns notes).st.stuck_cooldown =
      cfg.STUCK_COOLDOWN_STEPS ∧
    ((stuck_check_and_trigger cfg turnChoice st nm ns notes).st.dist_hist = [] ∨
      (stuck_check_and_trigger cfg turnChoice st nm ns notes).st.dist_hist =
        st.dist_hist.drop (st.dist_hist.length - cfg.STUCK_STEPS)) ∧
    (stuck_check_and_trigger cfg turnChoice st nm ns notes).next_motion = "forward" ∧
    (stuck_check_and_trigger cfg turnChoice st nm ns notes).next_speed =
      cfg.FORWARD_SPD ∧
    (∀ front_d,
      (auto_branch cfg (fun _ _ => Except.ok (nm, ns, notes)) front_d turnChoice st).map
          (fun o => (o.state.queued_moves, o.stuck_triggered, o.state.current_motion,
                     o.state.current_speed)) =
        Except.ok
          ([("backward", cfg.BACK_SPD, cfg.BACK_TICKS),
            ((if turnChoice then "left" else "right"), cfg.TURN_SPD, cfg.NUDGE_TICKS)],
           true, "forward", cfg.FORWARD_SPD)) := by
  have hg : cfg.STUCK_STEPS ≤ st.dist_hist.length ∧ st.stuck_cooldown = 0 :=
    ⟨le_of_eq hlen.symm, hcd⟩
  have hb : ¬ (st.dist_hist = [] ∨ st.dist_hist.length ≠ cfg.STUCK_STEPS ∨
      ¬ (nm = "forward" ∨ nm = "backward")) := by
    push_neg
    exact ⟨hne, hlen, hnm⟩
  have hstuck : is_robot_stuck cfg st.dist_hist nm =
      (true,
       "STUCK: spread " ++ toString (listMax st.dist_hist - listMin st.dist_hist) ++ "cm",
       cfg.STUCK_COOLDOWN_STEPS) := by
    simp only [is_robot_stuck]
    rw [if_neg hb, if_pos hspread]
  have hnotlt : ¬ cfg.STUCK_STEPS < st.dist_hist.length := by
    rw [hlen]
    exact lt_irrefl _
  have hkey : stuck_check_and_trigger cfg turnChoice st nm ns notes =
      { st := { st with
          queued_moves :=
            [("backward", cfg.BACK_SPD, cfg.BACK_TICKS),
             ((if turnChoice then "left" else "right"), cfg.TURN_SPD, cfg.NUDGE_TICKS)]
          stuck_cooldown := cfg.STUCK_COOLDOWN_STEPS
          dist_hist := st.dist_hist }
        next_motion := "forward"
        next_speed := cfg.FORWARD_SPD
        notes :=
          "STUCK: spread " ++ toString (listMax st.dist_hist - listMin st.dist_hist) ++ "cm"
        stuck_triggered := true } := by
    simp only [stuck_check_and_trigger]
    rw [if_pos hg, hstuck]
    simp only [if_true]
    rw [if_neg hnotlt]
  refine ⟨?_, ?_, ?_, ?_, ?_, ?_, ?_, ?_⟩
  · rw [hkey]
  · rw [hkey]
  · rw [hkey]
    simp
  · rw [hkey]
  · right
    rw [hkey, hlen]
    simp
  · rw [hkey]
  · rw [hkey]
  · intro front_d
    cases front_d with
    | inf =>
        by_cases h3 : 0 < cfg.STUCK_COOLDOWN_STEPS <;>
          simp [auto_branch, hkey, h3, Except.map]
    | val q =>
        by_cases h3 : 0 < cfg.STUCK_COOLDOWN_STEPS <;>
          simp [auto_branch, hkey, h3, Except.map]

/-- C3 witness: under the compiled defaults (window 3, delta 5 cm), the
near-constant history 42.0, 41.5, 42.3 with cooldown 0 and next motion
forward fires the trigger, enqueues the 2-tick macro and sets the cooldown
to 3. -/
theorem c3_stuck_trigger_witness :
    (stuck_check_and_trigger defaultCfg true
        { current_motion := "forward", current_speed := 7/10,
          dist_hist := [42, 83/2, 423/10], stuck_cooldown := 0, queued_moves := [],
          auto_mode := true, emergency_stopped := false }
        "forward" (7/10) "clear").stuck_triggered = true ∧
    (stuck_check_and_trigger defaultCfg true
        { current_motion := "forward", current_speed := 7/10,
          dist_hist := [42, 83/2, 423/10], stuck_cooldown := 0, queued_moves := [],
          auto_mode := true, emergency_stopped := false }
        "forward" (7/10) "clear").st.queued_moves =
      [("backward", defaultCfg.BACK_SPD, defaultCfg.BACK_TICKS),
       ("left", defaultCfg.TURN_SPD, defaultCfg.NUDGE_TICKS)] ∧
    (stuck_check_and_trigger defaultCfg true
        { current_motion := "forward", current_speed := 7/10,
          dist_hist := [42, 83/2, 423/10], stuck_cooldown := 0, queued_moves := [],
          auto_mode := true, emergency_stopped := false }
        "forward" (7/10) "clear").st.stuck_cooldown = defaultCfg.STUCK_COOLDOWN_STEPS := by
  have h := c3_stuck_trigger defaultCfg true
    { current_motion := "forward", current_speed := 7/10,
      dist_hist := [42, 83/2, 423/10], stuck_cooldown := 0, queued_moves := [],
      auto_mode := true, emergency_stopped := false }
    "forward" (7/10) "clear"
    (by decide) (by decide) rfl (Or.inl rfl) (by norm_num [listMax, listMin, defaultCfg])
  exact ⟨h.1, h.2.1, h.2.2.2.1⟩

/-- C4 counterexample: a tick that services a queued macro move leaves a
positive cooldown unchanged (the decrement lives only in the AUTO policy
branch, which a macro tick skips entirely), so the cooldown is not
decremented once per tick as claimed — here a cooldown of 2 is still 2
after the tick. -/
theorem c4_counterexample :
    (tick defaultCfg defaultPolicyFun (Dist.val 50) true []
        { current_motion := "forward", current_speed := 7/10, dist_hist := [40, 41, 42],
          stuck_cooldown := 2, queued_moves := [("left", 9/20, 1)], auto_mode := true,
          emergency_stopped := false }).map
        (fun o => (o.state.stuck_cooldown, o.state.queued_moves)) =
      Except.ok (2, []) :=
  rfl

/-- C4 (amended): stuck detection can trigger only when the cooldown is 0,
the history holds exactly `STUCK_STEPS` samples and the decided motion is
forward or backward; whenever the cooldown is positive no trigger occurs
even if the spread condition holds (the check is not even consulted and
the state is untouched), and an AUTO policy tick then decrements the
cooldown by exactly one — but a tick that services a queued macro move
leaves the cooldown unchanged, so the decrement is once per auto-mode
policy tick, not once per tick. -/
theorem c4_cooldown_guard (cfg : Cfg) (turnChoice : Bool) (st : CtrlState)
    (nm : String) (ns : ℚ) (notes : String) :
    (st.stuck_cooldown ≠ 0 →
      (stuck_check_and_trigger cfg turnChoice st nm ns notes).stuck_triggered = false ∧
      (stuck_check_and_trigger cfg turnChoice st nm ns notes).st = st ∧
      (∀ front_d,
        (auto_branch cfg (fun _ _ => Except.ok (nm, ns, notes)) front_d turnChoice st).map
            (fun o => o.state.stuck_cooldown) =
          Except.ok (st.stuck_cooldown - 1))) ∧
    ((stuck_check_and_trigger cfg turnChoice st nm ns notes).stuck_triggered = true →
      st.stuck_cooldown = 0 ∧ st.dist_hist.length = cfg.STUCK_STEPS ∧
      (nm = "forward" ∨ nm = "backward")) ∧
    (st.queued_moves ≠ [] →
      ∀ (dec : Dist → String → Except String (String × ℚ × String)) front_d cmds,
        (tick cfg dec front_d turnChoice cmds st).map (fun o => o.state.stuck_cooldown) =
          Except.ok st.stuck_cooldown) := by
  refine ⟨?_, ?_, ?_⟩
  · intro h
    have hg : ¬ (cfg.STUCK_STEPS ≤ st.dist_hist.length ∧ st.stuck_cooldown = 0) :=
      fun hc => h hc.2
    have hkey : stuck_check_and_trigger cfg turnChoice st nm ns notes =
        { st := st, next_motion := nm, next_speed := ns, notes := notes,
          stuck_triggered := false } := by
      simp only [stuck_check_and_trigger]
      rw [if_neg hg]
      rfl
    refine ⟨by rw [hkey], by rw [hkey], ?_⟩
    intro front_d
    have hpos : 0 < st.stuck_cooldown := Nat.pos_of_ne_zero h
    cases front_d with
    | inf => simp [auto_branch, hkey, hpos, Except.map]
    | val q => simp [auto_branch, hkey, hpos, Except.map]
  · intro htr
    by_cases hg : cfg.STUCK_STEPS ≤ st.dist_hist.length ∧ st.stuck_cooldown = 0
    · by_cases hb : st.dist_hist = [] ∨ st.dist_hist.length ≠ cfg.STUCK_STEPS ∨
          ¬ (nm = "forward" ∨ nm = "backward")
      · exfalso
        have hfalse : (stuck_check_and_trigger cfg turnChoice st nm ns notes).stuck_triggered =
            false := by
          simp only [stuck_check_and_trigger, is_robot_stuck]
          rw [if_pos hg, if_pos hb]
          rfl
        rw [htr] at hfalse
        exact Bool.noConfusion hfalse
      · push_neg at hb
        exact ⟨hg.2, hb.2.1, hb.2.2⟩
    · exfalso
      have hfalse : (stuck_check_and_trigger cfg turnChoice st nm ns notes).stuck_triggered =
          false := by
        simp only [stuck_check_and_trigger]
        rw [if_neg hg]
        rfl
      rw [htr] at hfalse
      exact Bool.noConfusion hfalse
  · intro hq dec front_d cmds
    rcases hqm : st.queued_moves with _ | ⟨⟨m, s, t⟩, rest⟩
    · exact absurd hqm hq
    · simp [tick, queued_branch, hqm, Except.map]

/-- C4 witness: the same small-spread history as the C3 witness but with a
cooldown of 2 does not trigger, and the AUTO tick decrements the cooldown
to 1. -/
theorem c4_cooldown_guard_witness :
    (stuck_check_and_trigger defaultCfg true
        { current_motion := "forward", current_speed := 7/10,
          dist_hist := [42, 83/2, 423/10], stuck_cooldown := 2, queued_moves := [],
          auto_mode := true, emergency_stopped := false }
        "forward" (7/10) "clear").stuck_triggered = false ∧
    (auto_branch defaultCfg (fun _ _ => Except.ok ("forward", (7/10 : ℚ), "clear"))
        (Dist.val 42) true
        { current_motion := "forward", current_speed := 7/10,
          dist_hist := [42, 83/2, 423/10], stuck_cooldown := 2, queued_moves := [],
          auto_mode := true, emergency_stopped := false }).map
        (fun o => o.state.stuck_cooldown) =
      Except.ok 1 := by
  have h := c4_cooldown_guard defaultCfg true
    { current_motion := "forward", current_speed := 7/10,
      dist_hist := [42, 83/2, 423/10], stuck_cooldown := 2, queued_moves := [],
      auto_mode := true, emergency_stopped := false }
    "forward" (7/10) "clear"
  have h1 := h.1 (by decide)
  exact ⟨h1.1, h1.2.2 (Dist.val 42)⟩

end WRobot
